import Mathlib

/-!
Verification of the client-side session and grading-workflow controller of the
fai-test-paper frontend.  The React component state is embedded as a record
`AppState`; each event handler becomes a pure function on `AppState`.  The two
asynchronous handlers (extract, grade) are split into a start phase (which
performs the guards, sets the busy flag and emits the outbound request) and a
finish phase (which consumes the remote outcome); the composed function
reproduces the whole async handler.  JavaScript truthiness of the optional
error-detail string is modelled by `jsOr`.
-/

namespace FaiFrontend

/-- Model of a JS number as used by the grading records (integral in practice). -/
abbrev JsNum := Int

/-- question_number is declared in the source as string or number. -/
inductive StrOrNum where
  | str (s : String)
  | num (n : JsNum)
deriving DecidableEq, Repr

/-- Per-question grading detail, from the QuestionDetail interface. -/
structure QuestionDetail where
  question_number : StrOrNum
  student_answer : String
  correct_answer : String
  is_correct : Bool
  remark : String
  marks_obtained : JsNum
deriving DecidableEq, Repr

/-- Result of the grading call, from the GradingResult interface. -/
structure GradingResult where
  participant_name : String
  company : String
  date : String
  place : String
  test_type : String
  mhe_type : String
  answers : List (String × String)
  total_marks_obtained : JsNum
  total_marks : JsNum
  percentage : JsNum
  grade : String
  details : List QuestionDetail
deriving DecidableEq, Repr

/-- Result of the extraction call, from the ExtractedData interface.
The answers object is modelled as an association list of key/value pairs. -/
structure ExtractedData where
  mhe_type : String
  participant_name : String
  company : String
  date : String
  place : String
  test_type : String
  total_questions : Nat
  answers : List (String × String)
  image_base64 : String
deriving DecidableEq, Repr

/-- The persistent client storage: the two localStorage slots for the bearer
token and the serialized user object. -/
structure Storage where
  token : Option String
  user : Option String
deriving DecidableEq, Repr

/-- The full React component state of the App component in the authenticated
variant, plus the persistent storage it manipulates. -/
structure AppState where
  isAuthenticated : Bool
  token : Option String
  user : Option String
  selectedFile : Option String
  previewUrl : Option String
  loading : Bool
  result : Option GradingResult
  error : Option String
  extractedData : Option ExtractedData
  showReview : Bool
  editedAnswers : List (String × String)
  storage : Storage
deriving DecidableEq, Repr

/-- Outbound network requests the controller can emit. -/
inductive Request where
  | extract (file : String)
  | grade (extracted : ExtractedData) (corrections : List (String × String))
deriving DecidableEq, Repr

/-- Outcome of an awaited API call: either the parsed response body, or a
failure carrying the HTTP status (none models a transport error with no
response) and the optional structured detail field of the error body. -/
inductive ApiOutcome (α : Type) where
  | success (val : α)
  | failure (status : Option Nat) (detail : Option String)
deriving DecidableEq, Repr

/-- JS expression `v || fallback` on an optional string: an absent or empty
string is falsy and selects the fallback. -/
def jsOr (v : Option String) (fallback : String) : String :=
  match v with
  | some s => if s = "" then fallback else s
  | none => fallback

/-- Lookup in an association list, modelling reading a key of a JS object. -/
def getVal : List (String × String) → String → Option String
  | [], _ => none
  | q :: rest, k => if q.1 = k then some q.2 else getVal rest k

/-- JS object spread update: overwrite the value of an existing key in
place, or append a fresh key at the end. -/
def setKey (m : List (String × String)) (k v : String) : List (String × String) :=
  if m.any (fun p => p.1 = k) then
    m.map (fun p => if p.1 = k then (k, v) else p)
  else
    m ++ [(k, v)]

/-- handleReset: clears file, preview, result, error, review flag and
extraction payload; it touches nothing else. -/
def handleReset (s : AppState) : AppState :=
  { s with selectedFile := none, previewUrl := none, result := none,
           error := none, showReview := false, extractedData := none }

/-- handleLogout: removes both storage slots, drops the session fields, then
performs the same teardown as handleReset. -/
def handleLogout (s : AppState) : AppState :=
  handleReset { s with storage := { token := none, user := none },
                       token := none, user := none, isAuthenticated := false }

/-- handleLoginSuccess: installs token and user and marks the session live. -/
def handleLoginSuccess (s : AppState) (accessToken userData : String) : AppState :=
  { s with token := some accessToken, user := some userData, isAuthenticated := true }

/-- handleFileSelect with a chosen file: replaces the selection and preview
and clears result, error, review flag and extraction payload. -/
def handleFileSelect (s : AppState) (file preview : String) : AppState :=
  { s with selectedFile := some file, previewUrl := some preview,
           result := none, error := none, showReview := false, extractedData := none }

/-- handleAnswerChange: functional update of one key of editedAnswers. -/
def handleAnswerChange (s : AppState) (questionKey value : String) : AppState :=
  { s with editedAnswers := setKey s.editedAnswers questionKey value }

/-- Start phase of handleExtractAnswers: the missing-file guard, then the
busy flag, error reset and the outbound extract request. -/
def handleExtractStart (s : AppState) : AppState × List Request :=
  match s.selectedFile with
  | none => ({ s with error := some "Please select a file first" }, [])
  | some file => ({ s with loading := true, error := none }, [Request.extract file])

/-- Finish phase of handleExtractAnswers: consume the extract outcome.  A 401
failure performs handleLogout and then sets the session-expired message; any
other failure surfaces the detail field or the fixed fallback.  The finally
block clears the busy flag on every path. -/
def handleExtractFinish (s : AppState) (outcome : ApiOutcome ExtractedData) : AppState :=
  match outcome with
  | ApiOutcome.success d =>
      { s with extractedData := some d, editedAnswers := d.answers,
               showReview := true, loading := false }
  | ApiOutcome.failure status detail =>
      if status = some 401 then
        { handleLogout s with
            error := some "Session expired. Please login again.", loading := false }
      else
        { s with error := some (jsOr detail "Error extracting answers"), loading := false }

/-- The whole async handleExtractAnswers: when the guard stops the call no
outcome is consumed, otherwise the finish phase runs on the started state. -/
def handleExtractAnswers (s : AppState) (outcome : ApiOutcome ExtractedData) :
    AppState × List Request :=
  match handleExtractStart s with
  | (s1, []) => (s1, [])
  | (s1, reqs) => (handleExtractFinish s1 outcome, reqs)

/-- Start phase of handleSubmitWithCorrections: the missing-payload guard,
then the busy flag, error reset, and the grading request carrying the stored
extraction payload together with the current correction map. -/
def handleSubmitStart (s : AppState) : AppState × List Request :=
  match s.extractedData with
  | none => (s, [])
  | some d =>
      ({ s with loading := true, error := none }, [Request.grade d s.editedAnswers])

/-- Finish phase of handleSubmitWithCorrections: store the grading result and
leave review mode on success; on a 401 failure log out and set the
session-expired message; on any other failure surface the detail or the fixed
fallback.  The finally block clears the busy flag on every path. -/
def handleSubmitFinish (s : AppState) (outcome : ApiOutcome GradingResult) : AppState :=
  match outcome with
  | ApiOutcome.success r =>
      { s with result := some r, showReview := false, loading := false }
  | ApiOutcome.failure status detail =>
      if status = some 401 then
        { handleLogout s with
            error := some "Session expired. Please login again.", loading := false }
      else
        { s with error := some (jsOr detail "Error grading test"), loading := false }

/-- The whole async handleSubmitWithCorrections. -/
def handleSubmitWithCorrections (s : AppState) (outcome : ApiOutcome GradingResult) :
    AppState × List Request :=
  match handleSubmitStart s with
  | (s1, []) => (s1, [])
  | (s1, reqs) => (handleSubmitFinish s1 outcome, reqs)

/-- A click on the submit button: the button carries disabled when loading,
so a click while a call is outstanding never reaches the handler. -/
def clickSubmit (s : AppState) : AppState × List Request :=
  if s.loading then (s, []) else handleSubmitStart s

/-- A click on the extract button, likewise disabled while loading. -/
def clickExtract (s : AppState) : AppState × List Request :=
  if s.loading then (s, []) else handleExtractStart s

/-- The global response interceptor of the api layer: on a 401 status it
removes both storage slots and navigates back to the login route (the Bool
records that redirect); every other status passes through. -/
def responseInterceptor (st : Storage) (status : Nat) : Storage × Bool :=
  if status = 401 then ({ token := none, user := none }, true) else (st, false)

/-- Classified input of handleAPIError: an axios error that received a
response (status plus optional detail body field), an axios error whose
request got no response, or any other thrown value. -/
inductive APIErrorInput where
  | axiosWithResponse (status : Nat) (detail : Option String)
  | axiosNoResponse
  | other
deriving DecidableEq, Repr

/-- handleAPIError from the api layer. -/
def handleAPIError : APIErrorInput → String
  | APIErrorInput.axiosWithResponse _ detail => jsOr detail "An error occurred"
  | APIErrorInput.axiosNoResponse => "Network error. Please check your connection."
  | APIErrorInput.other => "An unexpected error occurred"

/-! ## The question-key display ordering of getQuestionNumbers -/

/-- The digit characters of a string in order, modelling the regex replace
that deletes every character outside 0-9. -/
def stripNonDigits (s : String) : List Char := s.data.filter Char.isDigit

/-- Base-ten value of a list of digit characters. -/
def digitsToNat (l : List Char) : Nat :=
  l.foldl (fun n c => 10 * n + (c.toNat - 48)) 0

/-- parseInt on a digits-only string; none models NaN on the empty string. -/
def parseIntNat (l : List Char) : Option Nat :=
  if l = [] then none else some (digitsToNat l)

/-- Strict lexicographic comparison of char lists by code point, modelling
the string comparison performed by localeCompare on plain ASCII keys. -/
def charsLt : List Char → List Char → Bool
  | [], [] => false
  | [], _ :: _ => true
  | _ :: _, [] => false
  | a :: as, b :: bs =>
      if a.toNat < b.toNat then true
      else if b.toNat < a.toNat then false
      else charsLt as bs

/-- Lexicographic order on full key strings (reflexive closure of the strict
order above). -/
def strLE (a b : String) : Prop := charsLt b.data a.data = false

instance : DecidableRel strLE :=
  fun a b => inferInstanceAs (Decidable (charsLt b.data a.data = false))

/-- localeCompare, modelled as lexicographic string comparison returning a
sign integer. -/
def strCompareInt (a b : String) : Int :=
  if charsLt a.data b.data then -1 else if charsLt b.data a.data then 1 else 0

/-- The comparator passed to sort by getQuestionNumbers: compare the integers
parsed from the digit characters; on a tie fall back to localeCompare.  When
either parse is NaN the JS comparator evaluates to NaN, which sort treats as
zero, hence the catch-all zero branch. -/
def keyCompare (a b : String) : Int :=
  match parseIntNat (stripNonDigits a), parseIntNat (stripNonDigits b) with
  | some m, some n => if m ≠ n then (m : Int) - (n : Int) else strCompareInt a b
  | _, _ => 0

/-- The non-strict order induced by the comparator. -/
def keyLE (a b : String) : Prop := keyCompare a b ≤ 0

instance : DecidableRel keyLE :=
  fun a b => inferInstanceAs (Decidable (keyCompare a b ≤ 0))

/-- Object.keys of an answers object in the association-list model. -/
def keysOf (m : List (String × String)) : List String := m.map Prod.fst

/-- getQuestionNumbers: the answer keys sorted by the comparator.  The JS
engine sort is stable, and so is insertion sort, so on any comparator that is
a total preorder the two agree. -/
def getQuestionNumbers (d : ExtractedData) : List String :=
  List.insertionSort keyLE (keysOf d.answers)

/-- The leading run of digit characters of a key. -/
def leadingDigits (s : String) : List Char := s.data.takeWhile Char.isDigit

/-- Integer value of the leading numeric run of a key (zero when the run is
empty; only used on keys with a nonempty run). -/
def leadingNum (s : String) : Nat := digitsToNat (leadingDigits s)

/-- The ordering stated by the specification: ascending by the integer of
the leading numeric run, ties broken lexicographically on the full key. -/
def specKeyLE (a b : String) : Prop :=
  leadingNum a < leadingNum b ∨ (leadingNum a = leadingNum b ∧ strLE a b)

/-- A well-formed question key: a nonempty leading digit run, after which no
further digit occurs (in particular digits followed by an alphabetic
suffix, the shape the glossary gives for question keys). -/
def isQuestionKey (s : String) : Bool :=
  !(leadingDigits s).isEmpty &&
    (s.data.dropWhile Char.isDigit).all (fun c => !c.isDigit)

/-- A concrete extraction whose answer keys are the example key set of the
specification. -/
def exampleExtraction : ExtractedData :=
  { mhe_type := "FORKLIFT", participant_name := "", company := "", date := "",
    place := "", test_type := "", total_questions := 4,
    answers := [("2", "TRUE"), ("1a", "TRUE"), ("10", "FALSE"), ("1b", "TRUE")],
    image_base64 := "" }

/-- The initial component state: logged out, nothing selected, no transient
data, empty storage. -/
def initialState : AppState :=
  { isAuthenticated := false, token := none, user := none, selectedFile := none,
    previewUrl := none, loading := false, result := none, error := none,
    extractedData := none, showReview := false, editedAnswers := [],
    storage := { token := none, user := none } }

/-- A logged-in state with a file picked, as in the specification scenario. -/
def fileSelectedState : AppState :=
  handleFileSelect (handleLoginSuccess initialState "tok" "alice")
    "paper.jpg" "blob:preview"

/-- The extraction payload of the specification scenario: answers 1 TRUE,
2 FALSE. -/
def scenarioExtraction : ExtractedData :=
  { mhe_type := "FORKLIFT", participant_name := "A", company := "", date := "",
    place := "", test_type := "", total_questions := 2,
    answers := [("1", "TRUE"), ("2", "FALSE")], image_base64 := "" }

/-- The state after the scenario extraction succeeded. -/
def scenarioReviewing : AppState :=
  handleExtractFinish (handleExtractStart fileSelectedState).1
    (ApiOutcome.success scenarioExtraction)

/-- The scenario state after editing key 2 to the dont-know label. -/
def scenarioEdited : AppState :=
  handleAnswerChange scenarioReviewing "2" "Don\x27t Know"

/-- On a well-formed question key, stripping every non-digit yields exactly
the leading digit run. -/
lemma stripNonDigits_eq_leadingDigits (s : String) (h : isQuestionKey s = true) :
    stripNonDigits s = leadingDigits s := by
  unfold isQuestionKey at h
  rw [Bool.and_eq_true] at h
  obtain ⟨_, h2⟩ := h
  unfold stripNonDigits leadingDigits
  calc List.filter Char.isDigit s.data
      = List.filter Char.isDigit
          (s.data.takeWhile Char.isDigit ++ s.data.dropWhile Char.isDigit) := by
        rw [List.takeWhile_append_dropWhile]
    _ = List.filter Char.isDigit (s.data.takeWhile Char.isDigit) ++
          List.filter Char.isDigit (s.data.dropWhile Char.isDigit) := by
        rw [List.filter_append]
    _ = s.data.takeWhile Char.isDigit ++ [] := by
        rw [List.filter_eq_self.mpr (fun a ha => List.mem_takeWhile_imp ha),
          List.filter_eq_nil_iff.mpr ?_]
        intro a ha
        have := List.all_eq_true.mp h2 a ha
        simpa using this
    _ = s.data.takeWhile Char.isDigit := by rw [List.append_nil]

/-- On a well-formed question key the comparator never sees NaN: parseInt of
the stripped key is the value of the leading run. -/
lemma parseIntNat_of_key (s : String) (h : isQuestionKey s = true) :
    parseIntNat (stripNonDigits s) = some (leadingNum s) := by
  rw [stripNonDigits_eq_leadingDigits s h]
  unfold parseIntNat leadingNum
  rw [if_neg]
  intro hnil
  unfold isQuestionKey at h
  rw [Bool.and_eq_true] at h
  rw [hnil] at h
  simpa using h.1

lemma charsLt_asymm : ∀ {x y : List Char},
    charsLt x y = true → charsLt y x = false
  | [], [], h => by simp [charsLt] at h
  | [], _ :: _, _ => rfl
  | _ :: _, [], h => by simp [charsLt] at h
  | a :: as, b :: bs, h => by
    unfold charsLt at h ⊢
    by_cases h1 : a.toNat < b.toNat
    · rw [if_neg (by omega), if_pos h1]
    · by_cases h2 : b.toNat < a.toNat
      · rw [if_neg h1, if_pos h2] at h
        exact absurd h (by simp)
      · rw [if_neg h1, if_neg h2] at h
        rw [if_neg h2, if_neg h1]
        exact charsLt_asymm h

lemma charsLt_false_trans : ∀ {x y z : List Char},
    charsLt x y = false → charsLt y z = false → charsLt x z = false
  | [], [], [], _, _ => rfl
  | [], [], _ :: _, _, h2 => h2
  | [], _ :: _, _, h1, _ => by simp [charsLt] at h1
  | _ :: _, _, [], _, _ => rfl
  | _ :: _, [], _ :: _, _, h2 => by simp [charsLt] at h2
  | a :: as, b :: bs, c :: cs, h1, h2 => by
    unfold charsLt at h1 h2 ⊢
    by_cases hab : a.toNat < b.toNat
    · rw [if_pos hab] at h1
      exact absurd h1 (by simp)
    · by_cases hbc : b.toNat < c.toNat
      · rw [if_pos hbc] at h2
        exact absurd h2 (by simp)
      · by_cases hba : b.toNat < a.toNat
        · rw [if_neg (by omega), if_pos (by omega)]
        · by_cases hcb : c.toNat < b.toNat
          · rw [if_neg (by omega), if_pos (by omega)]
          · rw [if_neg hab, if_neg hba] at h1
            rw [if_neg hbc, if_neg hcb] at h2
            rw [if_neg (by omega), if_neg (by omega)]
            exact charsLt_false_trans h1 h2

lemma strLE_trans {a b c : String} (h1 : strLE a b) (h2 : strLE b c) :
    strLE a c :=
  charsLt_false_trans h2 h1

lemma strLE_total (a b : String) : strLE a b ∨ strLE b a := by
  unfold strLE
  by_cases hab : charsLt a.data b.data = true
  · exact Or.inl (charsLt_asymm hab)
  · rw [Bool.not_eq_true] at hab
    exact Or.inr hab

/-- On well-formed question keys the comparator order coincides with the
specification order. -/
lemma keyLE_iff (a b : String) (ha : isQuestionKey a = true)
    (hb : isQuestionKey b = true) : keyLE a b ↔ specKeyLE a b := by
  unfold keyLE specKeyLE keyCompare
  rw [parseIntNat_of_key a ha, parseIntNat_of_key b hb]
  dsimp only
  by_cases hmn : leadingNum a = leadingNum b
  · rw [if_neg (by simp [hmn])]
    unfold strCompareInt strLE
    constructor
    · intro hle
      by_cases hab : charsLt a.data b.data = true
      · exact Or.inr ⟨hmn, charsLt_asymm hab⟩
      · rw [Bool.not_eq_true] at hab
        by_cases hba : charsLt b.data a.data = true
        · rw [if_neg (by simp [hab]), if_pos hba] at hle
          omega
        · rw [Bool.not_eq_true] at hba
          exact Or.inr ⟨hmn, hba⟩
    · intro hs
      rcases hs with hlt | ⟨_, hba⟩
      · exact absurd hmn (Nat.ne_of_lt hlt)
      · by_cases hab : charsLt a.data b.data = true
        · rw [if_pos hab]
          omega
        · rw [if_neg hab, if_neg (by simp [hba])]
  · rw [if_pos hmn]
    constructor
    · intro hle
      exact Or.inl (by omega)
    · intro hs
      rcases hs with hlt | ⟨heq, _⟩
      · omega
      · exact absurd heq hmn

lemma specKeyLE_trans {a b c : String} (h1 : specKeyLE a b) (h2 : specKeyLE b c) :
    specKeyLE a c := by
  unfold specKeyLE at h1 h2 ⊢
  rcases h1 with h1 | ⟨e1, l1⟩ <;> rcases h2 with h2 | ⟨e2, l2⟩
  · exact Or.inl (lt_trans h1 h2)
  · exact Or.inl (e2 ▸ h1)
  · exact Or.inl (e1 ▸ h2)
  · exact Or.inr ⟨e1.trans e2, strLE_trans l1 l2⟩

lemma specKeyLE_total (a b : String) : specKeyLE a b ∨ specKeyLE b a := by
  unfold specKeyLE
  rcases lt_trichotomy (leadingNum a) (leadingNum b) with h | h | h
  · exact Or.inl (Or.inl h)
  · rcases strLE_total a b with hab | hba
    · exact Or.inl (Or.inr ⟨h, hab⟩)
    · exact Or.inr (Or.inr ⟨h.symm, hba⟩)
  · exact Or.inr (Or.inl h)

/-- Ordered insertion preserves sortedness when every element in sight is a
well-formed question key. -/
lemma pairwise_orderedInsert (a : String) (l : List String)
    (ha : isQuestionKey a = true) (hl : ∀ x ∈ l, isQuestionKey x = true)
    (hs : List.Pairwise keyLE l) :
    List.Pairwise keyLE (List.orderedInsert keyLE a l) := by
  induction l with
  | nil => simp [List.orderedInsert]
  | cons b t ih =>
    have hb : isQuestionKey b = true := hl b (by simp)
    have ht : ∀ x ∈ t, isQuestionKey x = true := fun x hx => hl x (by simp [hx])
    obtain ⟨hbt, hst⟩ := List.pairwise_cons.mp hs
    rw [List.orderedInsert]
    by_cases hab : keyLE a b
    · rw [if_pos hab]
      refine List.pairwise_cons.mpr ⟨?_, hs⟩
      intro x hx
      rcases List.mem_cons.mp hx with rfl | hx
      · exact hab
      · have hx' : isQuestionKey x = true := ht x hx
        exact (keyLE_iff a x ha hx').mpr
          (specKeyLE_trans ((keyLE_iff a b ha hb).mp hab)
            ((keyLE_iff b x hb hx').mp (hbt x hx)))
    · rw [if_neg hab]
      refine List.pairwise_cons.mpr ⟨?_, ih ht hst⟩
      intro x hx
      rcases (List.mem_orderedInsert keyLE).mp hx with heq | hx
      · have hxq : isQuestionKey x = true := by rw [heq]; exact ha
        have hnot : ¬ keyLE x b := by rw [heq]; exact hab
        rcases specKeyLE_total x b with hxb | hbx
        · exact absurd ((keyLE_iff x b hxq hb).mpr hxb) hnot
        · exact (keyLE_iff b x hb hxq).mpr hbx
      · exact hbt x hx

/-- Insertion sort of a list of well-formed question keys is sorted for the
comparator order. -/
lemma pairwise_insertionSort (l : List String)
    (hl : ∀ x ∈ l, isQuestionKey x = true) :
    List.Pairwise keyLE (List.insertionSort keyLE l) := by
  induction l with
  | nil => simp [List.insertionSort]
  | cons a t ih =>
    have ht : ∀ x ∈ t, isQuestionKey x = true := fun x hx => hl x (by simp [hx])
    rw [List.insertionSort]
    refine pairwise_orderedInsert a _ (hl a (by simp)) ?_ (ih ht)
    intro x hx
    exact ht x ((List.perm_insertionSort keyLE t).mem_iff.mp hx)

lemma getVal_map_set (k v : String) : ∀ (m : List (String × String)),
    m.any (fun p => p.1 = k) = true →
    getVal (m.map (fun p => if p.1 = k then (k, v) else p)) k = some v
  | [], h => by simp at h
  | p :: t, h => by
    by_cases hp : p.1 = k
    · simp only [List.map_cons]
      rw [if_pos hp]
      unfold getVal
      simp
    · rw [List.any_cons] at h
      simp only [hp, decide_False, Bool.false_or] at h
      simp only [List.map_cons, if_neg hp]
      unfold getVal
      rw [if_neg hp]
      exact getVal_map_set k v t h

lemma getVal_append_single (k v : String) : ∀ (m : List (String × String)),
    m.any (fun p => p.1 = k) = false →
    getVal (m ++ [(k, v)]) k = some v
  | [], _ => by simp [getVal]
  | p :: t, h => by
    rw [List.any_cons] at h
    have hp : ¬ (p.1 = k) := by
      intro hh
      simp [hh] at h
    simp only [hp, decide_False, Bool.false_or] at h
    rw [List.cons_append]
    unfold getVal
    rw [if_neg hp]
    exact getVal_append_single k v t h

/-- Updating a key makes lookup of that key return the new value. -/
lemma getVal_setKey_self (m : List (String × String)) (k v : String) :
    getVal (setKey m k v) k = some v := by
  unfold setKey
  by_cases hmem : m.any (fun p => p.1 = k) = true
  · rw [if_pos hmem]
    exact getVal_map_set k v m hmem
  · rw [if_neg hmem]
    rw [Bool.not_eq_true] at hmem
    exact getVal_append_single k v m hmem

/-- Updating a key leaves every other key of the map untouched. -/
lemma getVal_setKey_other (m : List (String × String)) (k v k2 : String)
    (h : k2 ≠ k) : getVal (setKey m k v) k2 = getVal m k2 := by
  unfold setKey
  by_cases hmem : m.any (fun p => p.1 = k) = true
  · rw [if_pos hmem]
    clear hmem
    induction m with
    | nil => rfl
    | cons p t ih =>
      by_cases hp : p.1 = k
      · simp only [List.map_cons, if_pos hp]
        unfold getVal
        rw [if_neg (fun hh => h hh.symm), if_neg (fun hh => h (hp ▸ hh).symm)]
        exact ih
      · simp only [List.map_cons, if_neg hp]
        unfold getVal
        by_cases hpk : p.1 = k2
        · rw [if_pos hpk, if_pos hpk]
        · rw [if_neg hpk, if_neg hpk]
          exact ih
  · rw [if_neg hmem]
    clear hmem
    induction m with
    | nil =>
      simp [getVal, Ne.symm h]
    | cons p t ih =>
      rw [List.cons_append]
      unfold getVal
      by_cases hpk : p.1 = k2
      · rw [if_pos hpk, if_pos hpk]
      · rw [if_neg hpk, if_neg hpk]
        exact ih

/-! ## Claims -/

/-- Claim C1: for every set of well-formed question keys (a leading digit
run followed by a digit-free suffix, the shape of a question key), the
display ordering of getQuestionNumbers is a permutation of the keys sorted
ascending by the integer of the leading numeric run, with ties broken
lexicographically on the full key; on the example key set 2, 1a, 10, 1b it
yields 1a, 1b, 2, 10. -/
theorem getQuestionNumbers_sorts_keys (d : ExtractedData)
    (h : ∀ k ∈ keysOf d.answers, isQuestionKey k = true) :
    List.Perm (getQuestionNumbers d) (keysOf d.answers) ∧
      List.Pairwise specKeyLE (getQuestionNumbers d) ∧
      getQuestionNumbers exampleExtraction = ["1a", "1b", "2", "10"] := by
  refine ⟨List.perm_insertionSort keyLE _, ?_, by decide⟩
  have hall : ∀ x ∈ getQuestionNumbers d, isQuestionKey x = true := fun x hx =>
    h x ((List.perm_insertionSort keyLE _).mem_iff.mp hx)
  exact (pairwise_insertionSort _ h).imp_of_mem
    (fun hx hy hle => (keyLE_iff _ _ (hall _ hx) (hall _ hy)).mp hle)

/-- Witness for C1 at the example key set of the specification. -/
theorem getQuestionNumbers_sorts_keys_witness :
    (∀ k ∈ keysOf exampleExtraction.answers, isQuestionKey k = true) ∧
      (List.Perm (getQuestionNumbers exampleExtraction)
          (keysOf exampleExtraction.answers) ∧
        List.Pairwise specKeyLE (getQuestionNumbers exampleExtraction) ∧
        getQuestionNumbers exampleExtraction = ["1a", "1b", "2", "10"]) :=
  ⟨by decide, getQuestionNumbers_sorts_keys exampleExtraction (by decide)⟩

/-- Claim C2: a 401 response clears both persisted storage slots and drives
the controller to the logged-out state with the session-expired error set,
whichever call produced it: shown for the extract handler, for the grade
handler, and for the global response interceptor of the api layer, which
applies uniformly to every request issued through the api client. -/
theorem unauthorized_clears_session (s : AppState) (detail : Option String)
    (st : Storage) :
    ((handleExtractFinish s (ApiOutcome.failure (some 401) detail)).isAuthenticated
        = false ∧
      (handleExtractFinish s (ApiOutcome.failure (some 401) detail)).storage.token
        = none ∧
      (handleExtractFinish s (ApiOutcome.failure (some 401) detail)).storage.user
        = none ∧
      (handleExtractFinish s (ApiOutcome.failure (some 401) detail)).error
        = some "Session expired. Please login again.") ∧
    ((handleSubmitFinish s (ApiOutcome.failure (some 401) detail)).isAuthenticated
        = false ∧
      (handleSubmitFinish s (ApiOutcome.failure (some 401) detail)).storage.token
        = none ∧
      (handleSubmitFinish s (ApiOutcome.failure (some 401) detail)).storage.user
        = none ∧
      (handleSubmitFinish s (ApiOutcome.failure (some 401) detail)).error
        = some "Session expired. Please login again.") ∧
    responseInterceptor st 401 = ({ token := none, user := none }, true) :=
  ⟨⟨rfl, rfl, rfl, rfl⟩, ⟨rfl, rfl, rfl, rfl⟩, rfl⟩

/-- Claim C3: submit sends the whole stored extraction payload unchanged
together with the whole current correction map, never a diff; an edit
changes exactly one entry of the correction map; and in the scenario the
request after editing key 2 carries corrections 1 TRUE, 2 dont-know while
the payload still holds 1 TRUE, 2 FALSE. -/
theorem submit_sends_full_payload (s : AppState) (d : ExtractedData)
    (m : List (String × String)) (k v k2 : String)
    (h1 : s.extractedData = some d) (h2 : k2 ≠ k) :
    handleSubmitStart s =
      ({ s with loading := true, error := none },
        [Request.grade d s.editedAnswers]) ∧
    getVal (setKey m k v) k = some v ∧
    getVal (setKey m k v) k2 = getVal m k2 ∧
    (handleSubmitStart scenarioEdited).2 =
      [Request.grade scenarioExtraction
        [("1", "TRUE"), ("2", "Don\x27t Know")]] ∧
    scenarioExtraction.answers = [("1", "TRUE"), ("2", "FALSE")] := by
  refine ⟨?_, getVal_setKey_self m k v, getVal_setKey_other m k v k2 h2,
    by decide, by decide⟩
  unfold handleSubmitStart
  rw [h1]

/-- Witness for C3 in the scenario state. -/
theorem submit_sends_full_payload_witness :
    (scenarioEdited.extractedData = some scenarioExtraction) ∧ ("2" ≠ "1") ∧
      (handleSubmitStart scenarioEdited =
        ({ scenarioEdited with loading := true, error := none },
          [Request.grade scenarioExtraction scenarioEdited.editedAnswers]) ∧
      getVal (setKey [("1", "TRUE")] "1" "FALSE") "1" = some "FALSE" ∧
      getVal (setKey [("1", "TRUE")] "1" "FALSE") "2" =
        getVal [("1", "TRUE")] "2" ∧
      (handleSubmitStart scenarioEdited).2 =
        [Request.grade scenarioExtraction
          [("1", "TRUE"), ("2", "Don\x27t Know")]] ∧
      scenarioExtraction.answers = [("1", "TRUE"), ("2", "FALSE")]) :=
  ⟨by decide, by decide,
    submit_sends_full_payload scenarioEdited scenarioExtraction
      [("1", "TRUE")] "1" "FALSE" "2" (by decide) (by decide)⟩

/-- Claim C4: while a grading call is outstanding the busy flag is set and
the submit button is disabled, so a second submit click is ignored: two
rapid clicks issue exactly one grading request. -/
theorem duplicate_submit_single_request (s : AppState) (d : ExtractedData)
    (h1 : s.loading = false) (h2 : s.extractedData = some d) :
    ((clickSubmit s).2).length = 1 ∧
      ((clickSubmit s).1).loading = true ∧
      (clickSubmit (clickSubmit s).1).2 = [] := by
  unfold clickSubmit handleSubmitStart
  rw [h1, h2]
  simp

/-- Witness for C4 in the scenario state. -/
theorem duplicate_submit_single_request_witness :
    (scenarioEdited.loading = false) ∧
      (scenarioEdited.extractedData = some scenarioExtraction) ∧
      (((clickSubmit scenarioEdited).2).length = 1 ∧
        ((clickSubmit scenarioEdited).1).loading = true ∧
        (clickSubmit (clickSubmit scenarioEdited).1).2 = []) :=
  ⟨by decide, by decide,
    duplicate_submit_single_request scenarioEdited scenarioExtraction
      (by decide) (by decide)⟩

/-- Claim C5: when no edit happens between a successful extraction and
submit, the correction map sent to grading is exactly the answers map
received from extraction: the corrections are seeded as a copy of the
extracted answers and carried into the grading request unchanged. -/
theorem roundtrip_corrections_unchanged (s : AppState) (d : ExtractedData) :
    (handleExtractFinish s (ApiOutcome.success d)).editedAnswers = d.answers ∧
      handleSubmitStart (handleExtractFinish s (ApiOutcome.success d)) =
        ({ handleExtractFinish s (ApiOutcome.success d) with
            loading := true, error := none },
          [Request.grade d d.answers]) :=
  ⟨rfl, rfl⟩

/-- Counterexample to claim C6 as stated: a grading failure whose status is
401 does not return to the reviewing state and loses the extraction
payload. -/
theorem grading_failure_401_leaves_reviewing :
    ¬ (((handleSubmitWithCorrections scenarioEdited
            (ApiOutcome.failure (some 401) none)).1).showReview = true ∧
        ((handleSubmitWithCorrections scenarioEdited
            (ApiOutcome.failure (some 401) none)).1).extractedData =
          scenarioEdited.extractedData) := by decide

/-- Claim C6 (amended): if the grading call fails with any failure other
than a 401 authorization failure, the workflow stays in the reviewing state
with the error set, and the extraction payload and the correction map are
unchanged, so resubmission is possible without re-extracting. -/
theorem grading_failure_preserves_review (s : AppState) (d : ExtractedData)
    (status : Option Nat) (detail : Option String)
    (h1 : s.extractedData = some d) (h2 : status ≠ some 401)
    (h3 : s.showReview = true) :
    ((handleSubmitWithCorrections s (ApiOutcome.failure status detail)).1).showReview
        = true ∧
      ((handleSubmitWithCorrections s (ApiOutcome.failure status detail)).1).extractedData
        = some d ∧
      ((handleSubmitWithCorrections s (ApiOutcome.failure status detail)).1).editedAnswers
        = s.editedAnswers ∧
      ((handleSubmitWithCorrections s (ApiOutcome.failure status detail)).1).error
        = some (jsOr detail "Error grading test") ∧
      ((handleSubmitWithCorrections s (ApiOutcome.failure status detail)).1).loading
        = false := by
  unfold handleSubmitWithCorrections handleSubmitStart handleSubmitFinish
  rw [h1]
  simp [h2, h3]

/-- Witness for the amended C6 in the scenario state with a 500 failure. -/
theorem grading_failure_preserves_review_witness :
    (scenarioEdited.extractedData = some scenarioExtraction) ∧
      ((some 500 : Option Nat) ≠ some 401) ∧
      (scenarioEdited.showReview = true) ∧
      (((handleSubmitWithCorrections scenarioEdited
            (ApiOutcome.failure (some 500) none)).1).showReview = true ∧
        ((handleSubmitWithCorrections scenarioEdited
            (ApiOutcome.failure (some 500) none)).1).extractedData =
          some scenarioExtraction ∧
        ((handleSubmitWithCorrections scenarioEdited
            (ApiOutcome.failure (some 500) none)).1).editedAnswers =
          scenarioEdited.editedAnswers ∧
        ((handleSubmitWithCorrections scenarioEdited
            (ApiOutcome.failure (some 500) none)).1).error =
          some (jsOr none "Error grading test") ∧
        ((handleSubmitWithCorrections scenarioEdited
            (ApiOutcome.failure (some 500) none)).1).loading = false) :=
  ⟨by decide, by decide, by decide,
    grading_failure_preserves_review scenarioEdited scenarioExtraction
      (some 500) none (by decide) (by decide) (by decide)⟩

/-- Counterexample to claim C7 as stated: an extract failure whose status is
401 clears the selected file instead of preserving it. -/
theorem extract_failure_401_loses_file :
    ¬ (((handleExtractAnswers fileSelectedState
            (ApiOutcome.failure (some 401) none)).1).selectedFile =
          fileSelectedState.selectedFile) := by decide

/-- Claim C7 (amended): if the extract call fails with any failure other
than a 401 authorization failure, the workflow returns to the file-selected
state with the error set and the selected document (file and preview)
unchanged, so the user can retry extraction without re-picking the file. -/
theorem extract_failure_preserves_file (s : AppState) (f : String)
    (status : Option Nat) (detail : Option String)
    (h1 : s.selectedFile = some f) (h2 : status ≠ some 401) :
    ((handleExtractAnswers s (ApiOutcome.failure status detail)).1).selectedFile
        = some f ∧
      ((handleExtractAnswers s (ApiOutcome.failure status detail)).1).previewUrl
        = s.previewUrl ∧
      ((handleExtractAnswers s (ApiOutcome.failure status detail)).1).error
        = some (jsOr detail "Error extracting answers") ∧
      ((handleExtractAnswers s (ApiOutcome.failure status detail)).1).showReview
        = s.showReview ∧
      ((handleExtractAnswers s (ApiOutcome.failure status detail)).1).extractedData
        = s.extractedData ∧
      ((handleExtractAnswers s (ApiOutcome.failure status detail)).1).loading
        = false := by
  unfold handleExtractAnswers handleExtractStart handleExtractFinish
  rw [h1]
  simp [h2]

/-- Witness for the amended C7 with a network failure in the file-selected
state. -/
theorem extract_failure_preserves_file_witness :
    (fileSelectedState.selectedFile = some "paper.jpg") ∧
      ((none : Option Nat) ≠ some 401) ∧
      (((handleExtractAnswers fileSelectedState
            (ApiOutcome.failure none none)).1).selectedFile = some "paper.jpg" ∧
        ((handleExtractAnswers fileSelectedState
            (ApiOutcome.failure none none)).1).previewUrl =
          fileSelectedState.previewUrl ∧
        ((handleExtractAnswers fileSelectedState
            (ApiOutcome.failure none none)).1).error =
          some (jsOr none "Error extracting answers") ∧
        ((handleExtractAnswers fileSelectedState
            (ApiOutcome.failure none none)).1).showReview =
          fileSelectedState.showReview ∧
        ((handleExtractAnswers fileSelectedState
            (ApiOutcome.failure none none)).1).extractedData =
          fileSelectedState.extractedData ∧
        ((handleExtractAnswers fileSelectedState
            (ApiOutcome.failure none none)).1).loading = false) :=
  ⟨by decide, by decide,
    extract_failure_preserves_file fileSelectedState "paper.jpg" none none
      (by decide) (by decide)⟩

/-- Counterexample to claim C8 as stated: a validation failure (400), a
server failure (500) and an authorization failure (401) without a
structured detail all yield one and the same fallback message, so there is
no distinct fallback per failure class. -/
theorem handleAPIError_shared_fallback :
    handleAPIError (APIErrorInput.axiosWithResponse 400 none) =
        handleAPIError (APIErrorInput.axiosWithResponse 500 none) ∧
      handleAPIError (APIErrorInput.axiosWithResponse 401 none) =
        handleAPIError (APIErrorInput.axiosWithResponse 500 none) ∧
      handleAPIError (APIErrorInput.axiosWithResponse 400 none) =
        "An error occurred" :=
  ⟨rfl, rfl, rfl⟩

/-- Claim C8 (amended): a present nonempty detail field is returned
verbatim whatever the status; otherwise the fallback depends only on
whether a response arrived: one shared message for any response without a
detail, one message for transport failures without a response, and one for
every other thrown value. -/
theorem handleAPIError_detail_verbatim (status : Nat) (msg : String)
    (h : msg ≠ "") :
    handleAPIError (APIErrorInput.axiosWithResponse status (some msg)) = msg ∧
      handleAPIError (APIErrorInput.axiosWithResponse status none) =
        "An error occurred" ∧
      handleAPIError APIErrorInput.axiosNoResponse =
        "Network error. Please check your connection." ∧
      handleAPIError APIErrorInput.other = "An unexpected error occurred" := by
  refine ⟨?_, rfl, rfl, rfl⟩
  simp [handleAPIError, jsOr, h]

/-- Witness for the amended C8 with a concrete detail message. -/
theorem handleAPIError_detail_verbatim_witness :
    ("Invalid file type" ≠ "") ∧
      (handleAPIError
          (APIErrorInput.axiosWithResponse 400 (some "Invalid file type")) =
        "Invalid file type" ∧
      handleAPIError (APIErrorInput.axiosWithResponse 400 none) =
        "An error occurred" ∧
      handleAPIError APIErrorInput.axiosNoResponse =
        "Network error. Please check your connection." ∧
      handleAPIError APIErrorInput.other = "An unexpected error occurred") :=
  ⟨by decide, handleAPIError_detail_verbatim 400 "Invalid file type" (by decide)⟩

/-- Claim C9: handleReset is idempotent, and the reset state has the
selected file, preview, grading result, error, review flag and extraction
payload all cleared. -/
theorem reset_idempotent (s : AppState) :
    handleReset (handleReset s) = handleReset s ∧
      (handleReset s).selectedFile = none ∧
      (handleReset s).previewUrl = none ∧
      (handleReset s).result = none ∧
      (handleReset s).error = none ∧
      (handleReset s).showReview = false ∧
      (handleReset s).extractedData = none :=
  ⟨rfl, rfl, rfl, rfl, rfl, rfl, rfl⟩

/-- Claim C10: invoking extract while no file is selected sets the fixed
error message, issues no network request, and leaves every other field,
the busy flag included, unchanged. -/
theorem extract_without_file_noop (s : AppState)
    (outcome : ApiOutcome ExtractedData) (h : s.selectedFile = none) :
    handleExtractAnswers s outcome =
      ({ s with error := some "Please select a file first" }, []) := by
  unfold handleExtractAnswers handleExtractStart
  rw [h]

/-- Witness for C10 in the initial state. -/
theorem extract_without_file_noop_witness :
    (initialState.selectedFile = none) ∧
      handleExtractAnswers initialState (ApiOutcome.failure none none) =
        ({ initialState with error := some "Please select a file first" }, []) :=
  ⟨rfl, extract_without_file_noop initialState (ApiOutcome.failure none none) rfl⟩

end FaiFrontend
